import Mathlib

/-!
Shallow embedding of `src/components/script/dom/xrrigidtransform.rs` together
with the parts of the `euclid` linear-algebra library (version 0.19, the one
the source imports: `Transform3D`, `Rotation3D`) that the file uses.

Scalars are embedded as `ℚ` (exact arithmetic standing for the source's `f64`;
"within floating-point tolerance" in the specification is read as exact
equality of the underlying algebra).

Conventions, taken from euclid: `Transform3D` is a row-major 4x4 matrix acting
on row vectors (`p' = p * M`, translation components in `m41, m42, m43`), and
`post_mul` returns the matrix whose transformation applies `self` first and
the argument after (the row-major product `self * mat`).
-/

/-- euclid `Transform3D<f64>`: a row-major 4x4 matrix. -/
@[ext]
structure Transform3D where
  m11 : ℚ
  m12 : ℚ
  m13 : ℚ
  m14 : ℚ
  m21 : ℚ
  m22 : ℚ
  m23 : ℚ
  m24 : ℚ
  m31 : ℚ
  m32 : ℚ
  m33 : ℚ
  m34 : ℚ
  m41 : ℚ
  m42 : ℚ
  m43 : ℚ
  m44 : ℚ
  deriving DecidableEq

/-- euclid `Transform3D::identity()`. -/
def Transform3D.identity : Transform3D :=
  ⟨1, 0, 0, 0,
   0, 1, 0, 0,
   0, 0, 1, 0,
   0, 0, 0, 1⟩

/-- euclid `Transform3D::create_translation(x, y, z)`. -/
def Transform3D.create_translation (x y z : ℚ) : Transform3D :=
  ⟨1, 0, 0, 0,
   0, 1, 0, 0,
   0, 0, 1, 0,
   x, y, z, 1⟩

/-- euclid `Transform3D::post_mul(mat)`: the row-major product `self * mat`,
i.e. the transform applying `self` first and `mat` after. -/
def Transform3D.post_mul (s mat : Transform3D) : Transform3D :=
  ⟨s.m11 * mat.m11 + s.m12 * mat.m21 + s.m13 * mat.m31 + s.m14 * mat.m41,
   s.m11 * mat.m12 + s.m12 * mat.m22 + s.m13 * mat.m32 + s.m14 * mat.m42,
   s.m11 * mat.m13 + s.m12 * mat.m23 + s.m13 * mat.m33 + s.m14 * mat.m43,
   s.m11 * mat.m14 + s.m12 * mat.m24 + s.m13 * mat.m34 + s.m14 * mat.m44,
   s.m21 * mat.m11 + s.m22 * mat.m21 + s.m23 * mat.m31 + s.m24 * mat.m41,
   s.m21 * mat.m12 + s.m22 * mat.m22 + s.m23 * mat.m32 + s.m24 * mat.m42,
   s.m21 * mat.m13 + s.m22 * mat.m23 + s.m23 * mat.m33 + s.m24 * mat.m43,
   s.m21 * mat.m14 + s.m22 * mat.m24 + s.m23 * mat.m34 + s.m24 * mat.m44,
   s.m31 * mat.m11 + s.m32 * mat.m21 + s.m33 * mat.m31 + s.m34 * mat.m41,
   s.m31 * mat.m12 + s.m32 * mat.m22 + s.m33 * mat.m32 + s.m34 * mat.m42,
   s.m31 * mat.m13 + s.m32 * mat.m23 + s.m33 * mat.m33 + s.m34 * mat.m43,
   s.m31 * mat.m14 + s.m32 * mat.m24 + s.m33 * mat.m34 + s.m34 * mat.m44,
   s.m41 * mat.m11 + s.m42 * mat.m21 + s.m43 * mat.m31 + s.m44 * mat.m41,
   s.m41 * mat.m12 + s.m42 * mat.m22 + s.m43 * mat.m32 + s.m44 * mat.m42,
   s.m41 * mat.m13 + s.m42 * mat.m23 + s.m43 * mat.m33 + s.m44 * mat.m43,
   s.m41 * mat.m14 + s.m42 * mat.m24 + s.m43 * mat.m34 + s.m44 * mat.m44⟩

/-- Determinant of a 3x3 matrix given row-major. -/
def det3 (a b c d e f g h i : ℚ) : ℚ :=
  a * (e * i - f * h) - b * (d * i - f * g) + c * (d * h - e * g)

/-- euclid `Transform3D::determinant()`: the 4x4 determinant, expanded along
the first row. -/
def Transform3D.determinant (m : Transform3D) : ℚ :=
  m.m11 * det3 m.m22 m.m23 m.m24 m.m32 m.m33 m.m34 m.m42 m.m43 m.m44
  - m.m12 * det3 m.m21 m.m23 m.m24 m.m31 m.m33 m.m34 m.m41 m.m43 m.m44
  + m.m13 * det3 m.m21 m.m22 m.m24 m.m31 m.m32 m.m34 m.m41 m.m42 m.m44
  - m.m14 * det3 m.m21 m.m22 m.m23 m.m31 m.m32 m.m33 m.m41 m.m42 m.m43

/-- euclid `Transform3D::mul_s(s)`: entrywise scalar multiplication. -/
def Transform3D.mul_s (m : Transform3D) (s : ℚ) : Transform3D :=
  ⟨m.m11 * s, m.m12 * s, m.m13 * s, m.m14 * s,
   m.m21 * s, m.m22 * s, m.m23 * s, m.m24 * s,
   m.m31 * s, m.m32 * s, m.m33 * s, m.m34 * s,
   m.m41 * s, m.m42 * s, m.m43 * s, m.m44 * s⟩

/-- euclid `Transform3D::inverse()`: `None` when the determinant vanishes,
otherwise the adjugate scaled by the reciprocal determinant. -/
def Transform3D.inverse (m : Transform3D) : Option Transform3D :=
  let det := m.determinant
  if det = 0 then none
  else
    some (Transform3D.mul_s
      ⟨det3 m.m22 m.m23 m.m24 m.m32 m.m33 m.m34 m.m42 m.m43 m.m44,
       -det3 m.m12 m.m13 m.m14 m.m32 m.m33 m.m34 m.m42 m.m43 m.m44,
       det3 m.m12 m.m13 m.m14 m.m22 m.m23 m.m24 m.m42 m.m43 m.m44,
       -det3 m.m12 m.m13 m.m14 m.m22 m.m23 m.m24 m.m32 m.m33 m.m34,
       -det3 m.m21 m.m23 m.m24 m.m31 m.m33 m.m34 m.m41 m.m43 m.m44,
       det3 m.m11 m.m13 m.m14 m.m31 m.m33 m.m34 m.m41 m.m43 m.m44,
       -det3 m.m11 m.m13 m.m14 m.m21 m.m23 m.m24 m.m41 m.m43 m.m44,
       det3 m.m11 m.m13 m.m14 m.m21 m.m23 m.m24 m.m31 m.m33 m.m34,
       det3 m.m21 m.m22 m.m24 m.m31 m.m32 m.m34 m.m41 m.m42 m.m44,
       -det3 m.m11 m.m12 m.m14 m.m31 m.m32 m.m34 m.m41 m.m42 m.m44,
       det3 m.m11 m.m12 m.m14 m.m21 m.m22 m.m24 m.m41 m.m42 m.m44,
       -det3 m.m11 m.m12 m.m14 m.m21 m.m22 m.m24 m.m31 m.m32 m.m34,
       -det3 m.m21 m.m22 m.m23 m.m31 m.m32 m.m33 m.m41 m.m42 m.m43,
       det3 m.m11 m.m12 m.m13 m.m31 m.m32 m.m33 m.m41 m.m42 m.m43,
       -det3 m.m11 m.m12 m.m13 m.m21 m.m22 m.m23 m.m41 m.m42 m.m43,
       det3 m.m11 m.m12 m.m13 m.m21 m.m22 m.m23 m.m31 m.m32 m.m33⟩
      (1 / det))

/-- euclid `Transform3D::transform_point3d(p)`: row-vector application
`p' = p * M` with homogeneous divide. -/
def Transform3D.transform_point3d (m : Transform3D) (p : ℚ × ℚ × ℚ) : ℚ × ℚ × ℚ :=
  let x := p.1 * m.m11 + p.2.1 * m.m21 + p.2.2 * m.m31 + m.m41
  let y := p.1 * m.m12 + p.2.1 * m.m22 + p.2.2 * m.m32 + m.m42
  let z := p.1 * m.m13 + p.2.1 * m.m23 + p.2.2 * m.m33 + m.m43
  let w := p.1 * m.m14 + p.2.1 * m.m24 + p.2.2 * m.m34 + m.m44
  (x / w, y / w, z / w)

/-- euclid `Rotation3D<f64>`: a quaternion `r + i·x + j·y + k·z`. -/
@[ext]
structure Rotation3D where
  i : ℚ
  j : ℚ
  k : ℚ
  r : ℚ
  deriving DecidableEq

/-- euclid `Rotation3D::unit_quaternion(i, j, k, r)`: stores the components
directly, without any normalization. -/
def Rotation3D.unit_quaternion (i j k r : ℚ) : Rotation3D := ⟨i, j, k, r⟩

/-- euclid `Rotation3D::inverse()`: the conjugate quaternion. -/
def Rotation3D.inverse (q : Rotation3D) : Rotation3D :=
  Rotation3D.unit_quaternion (-q.i) (-q.j) (-q.k) q.r

/-- euclid `Rotation3D::to_transform()`: quaternion-to-matrix conversion,
row-major, matching euclid's row-vector convention. -/
def Rotation3D.to_transform (q : Rotation3D) : Transform3D :=
  let i2 := q.i + q.i
  let j2 := q.j + q.j
  let k2 := q.k + q.k
  let ii := q.i * i2
  let ij := q.i * j2
  let ik := q.i * k2
  let jj := q.j * j2
  let jk := q.j * k2
  let kk := q.k * k2
  let ir := i2 * q.r
  let jr := j2 * q.r
  let kr := k2 * q.r
  ⟨1 - (jj + kk), ij + kr, ik - jr, 0,
   ij - kr, 1 - (ii + kk), jk + ir, 0,
   ik + jr, jk - ir, 1 - (ii + jj), 0,
   0, 0, 0, 1⟩

/-- `DOMPointReadOnly`: four stored components; `X()`, `Y()`, `Z()`, `W()`
return them. -/
@[ext]
structure DOMPointReadOnly where
  x : ℚ
  y : ℚ
  z : ℚ
  w : ℚ
  deriving DecidableEq

/-- `DOMPointInit`: the four components supplied to the constructor. -/
structure DOMPointInit where
  x : ℚ
  y : ℚ
  z : ℚ
  w : ℚ
  deriving DecidableEq

/-- `DOMPointReadOnly::new_from_init`: copies the four init components. -/
def DOMPointReadOnly.new_from_init (init : DOMPointInit) : DOMPointReadOnly :=
  ⟨init.x, init.y, init.z, init.w⟩

/-- `XRRigidTransform`: stored position and orientation points plus the
cached translation matrix and rotation derived at construction. -/
@[ext]
structure XRRigidTransform where
  position : DOMPointReadOnly
  orientation : DOMPointReadOnly
  translate : Transform3D
  rotate : Rotation3D
  deriving DecidableEq

/-- `XRRigidTransform::new_inherited`: stores the two points and derives
`translate` from the position's x, y, z and `rotate` from the orientation's
four components. -/
def XRRigidTransform.new_inherited
    (position orientation : DOMPointReadOnly) : XRRigidTransform :=
  { position := position
    orientation := orientation
    translate := Transform3D.create_translation position.x position.y position.z
    rotate :=
      Rotation3D.unit_quaternion orientation.x orientation.y orientation.z
        orientation.w }

/-- `XRRigidTransform::identity`: position `(0,0,0,1)`, orientation
`(0,0,0,1)`. -/
def XRRigidTransform.identity_transform : XRRigidTransform :=
  XRRigidTransform.new_inherited ⟨0, 0, 0, 1⟩ ⟨0, 0, 0, 1⟩

/-- `XRRigidTransform::Constructor`: builds the two points from the supplied
inits (no normalization of the orientation) and unconditionally returns
`Ok`. -/
def XRRigidTransform.Constructor
    (position orientation : DOMPointInit) : Except String XRRigidTransform :=
  Except.ok
    (XRRigidTransform.new_inherited (DOMPointReadOnly.new_from_init position)
      (DOMPointReadOnly.new_from_init orientation))

/-- `XRRigidTransform::Position` accessor. -/
def XRRigidTransform.Position (s : XRRigidTransform) : DOMPointReadOnly :=
  s.position

/-- `XRRigidTransform::Orientation` accessor. -/
def XRRigidTransform.Orientation (s : XRRigidTransform) : DOMPointReadOnly :=
  s.orientation

/-- `XRRigidTransform::Inverse`: conjugate quaternion `r_1`, inverted
translation matrix `t_1` (`None` here models the `expect` panic branch),
`t_p = r_1 * t_1 * rotate` whose translation row gives the new position with
`w = 1`, and a new transform built through the normal constructor. -/
def XRRigidTransform.Inverse (s : XRRigidTransform) : Option XRRigidTransform :=
  let r_1 := s.rotate.inverse
  s.translate.inverse.map fun t_1 =>
    let t_p := (r_1.to_transform.post_mul t_1).post_mul s.rotate.to_transform
    XRRigidTransform.new_inherited ⟨t_p.m41, t_p.m42, t_p.m43, 1⟩
      ⟨r_1.i, r_1.j, r_1.k, r_1.r⟩

/-- `XRRigidTransform::matrix`: `translate.post_mul(rotate.to_transform())`. -/
def XRRigidTransform.matrix (s : XRRigidTransform) : Transform3D :=
  s.translate.post_mul s.rotate.to_transform

/-- Models the allocation effect of `XRRigidTransform::Inverse` on an
explicit store of reflected transforms: the receiver is looked up at its
index, its inverse is computed, and `reflect_dom_object` appends the result
as a fresh object; no existing entry is written. `none` models the `expect`
panic branch. -/
def XRRigidTransform.inverse_step (world : List XRRigidTransform) (i : Nat) :
    Option (List XRRigidTransform × Nat) :=
  match world[i]? with
  | none => none
  | some t =>
    match t.Inverse with
    | none => none
    | some u => some (world ++ [u], world.length)

/-- The matrix action claimed by the specification (`matrix()` maps a point
`p` to `T(R(p))`): rotate the point by the orientation quaternion first, then
add the translation derived from the position. -/
def spec_matrix_action (p o : DOMPointReadOnly) (pt : ℚ × ℚ × ℚ) : ℚ × ℚ × ℚ :=
  let r :=
    (Rotation3D.unit_quaternion o.x o.y o.z o.w).to_transform.transform_point3d pt
  (r.1 + p.x, r.2.1 + p.y, r.2.2 + p.z)

/-- The inverse of a pure translation matrix always exists and negates the
translation components. -/
lemma Transform3D.create_translation_inverse (a b c : ℚ) :
    (Transform3D.create_translation a b c).inverse
      = some (Transform3D.create_translation (-a) (-b) (-c)) := by
  norm_num [Transform3D.inverse, Transform3D.determinant,
    Transform3D.create_translation, det3, Transform3D.mul_s, Transform3D.mk.injEq]

/-- Closed form of `Inverse` on any constructed transform: the translation
matrix always inverts, the new orientation is the conjugate quaternion, and
the new position is the translation row of `r_1 * t_1 * rotate` with
`w = 1`. -/
lemma XRRigidTransform.Inverse_new_inherited (p o : DOMPointReadOnly) :
    (XRRigidTransform.new_inherited p o).Inverse
      = some (XRRigidTransform.new_inherited
          ⟨-(p.x * (1 - 2 * (o.y * o.y + o.z * o.z)) + p.y * (2 * (o.x * o.y - o.w * o.z))
              + p.z * (2 * (o.x * o.z + o.w * o.y))),
           -(p.x * (2 * (o.x * o.y + o.w * o.z)) + p.y * (1 - 2 * (o.x * o.x + o.z * o.z))
              + p.z * (2 * (o.y * o.z - o.w * o.x))),
           -(p.x * (2 * (o.x * o.z - o.w * o.y)) + p.y * (2 * (o.y * o.z + o.w * o.x))
              + p.z * (1 - 2 * (o.x * o.x + o.y * o.y))),
           1⟩
          ⟨-o.x, -o.y, -o.z, o.w⟩) := by
  simp only [XRRigidTransform.Inverse, XRRigidTransform.new_inherited,
    Transform3D.create_translation_inverse, Option.map_some', Option.some.injEq,
    Rotation3D.inverse, Rotation3D.unit_quaternion]
  ext <;>
    simp only [Transform3D.post_mul, Rotation3D.to_transform,
      Transform3D.create_translation] <;>
    ring

/-- The identity transform inverts to itself exactly. -/
lemma XRRigidTransform.identity_Inverse :
    XRRigidTransform.identity_transform.Inverse
      = some XRRigidTransform.identity_transform := by
  norm_num [XRRigidTransform.Inverse, XRRigidTransform.identity_transform,
    XRRigidTransform.new_inherited, Transform3D.inverse, Transform3D.determinant,
    Transform3D.create_translation, det3, Transform3D.mul_s, Rotation3D.inverse,
    Rotation3D.unit_quaternion, Rotation3D.to_transform, Transform3D.post_mul,
    Transform3D.mk.injEq, XRRigidTransform.mk.injEq, DOMPointReadOnly.mk.injEq,
    Rotation3D.mk.injEq, Option.map]

/-- Claim C1: for every validly constructed transform (unit-quaternion
orientation, position with homogeneous weight 1), the matrix returned by
`matrix()` multiplied with the matrix of the transform returned by
`Inverse()` equals the 4x4 identity matrix (exactly, in the exact-arithmetic
embedding standing for floating-point tolerance). -/
theorem C1_matrix_mul_inverse_matrix_eq_identity
    (a b c x y z w : ℚ) (h : x ^ 2 + y ^ 2 + z ^ 2 + w ^ 2 = 1) :
    ∃ u, (XRRigidTransform.new_inherited ⟨a, b, c, 1⟩ ⟨x, y, z, w⟩).Inverse = some u ∧
      (XRRigidTransform.new_inherited ⟨a, b, c, 1⟩ ⟨x, y, z, w⟩).matrix.post_mul u.matrix
        = Transform3D.identity := by
  refine ⟨_, XRRigidTransform.Inverse_new_inherited _ _, ?_⟩
  ext <;>
    simp only [XRRigidTransform.matrix, XRRigidTransform.new_inherited,
      Transform3D.post_mul, Rotation3D.to_transform, Rotation3D.unit_quaternion,
      Transform3D.create_translation, Transform3D.identity] <;>
    first
      | ring1
      | linear_combination (4 * (y ^ 2 + z ^ 2)) * h
      | linear_combination (4 * (x ^ 2 + z ^ 2)) * h
      | linear_combination (4 * (x ^ 2 + y ^ 2)) * h
      | linear_combination (-4 * x * y) * h
      | linear_combination (-4 * x * z) * h
      | linear_combination (-4 * y * z) * h

/-- Witness for C1 at position (1,2,3) and unit quaternion (3/5,0,0,4/5). -/
theorem C1_witness_concrete :
    ((3 / 5 : ℚ) ^ 2 + (0 : ℚ) ^ 2 + (0 : ℚ) ^ 2 + (4 / 5 : ℚ) ^ 2 = 1) ∧
      ∃ u,
        (XRRigidTransform.new_inherited ⟨1, 2, 3, 1⟩ ⟨3 / 5, 0, 0, 4 / 5⟩).Inverse
            = some u ∧
          (XRRigidTransform.new_inherited
                ⟨1, 2, 3, 1⟩ ⟨3 / 5, 0, 0, 4 / 5⟩).matrix.post_mul u.matrix
            = Transform3D.identity :=
  ⟨by norm_num,
    C1_matrix_mul_inverse_matrix_eq_identity 1 2 3 (3 / 5) 0 0 (4 / 5) (by norm_num)⟩

/-- Claim C2: for every validly constructed transform (unit-quaternion
orientation, position with homogeneous weight 1), applying `Inverse()` twice
yields a transform whose position and orientation components (and cached
fields) equal those of the original exactly in the exact-arithmetic
embedding. -/
theorem C2_inverse_inverse_roundtrip
    (a b c x y z w : ℚ) (h : x ^ 2 + y ^ 2 + z ^ 2 + w ^ 2 = 1) :
    ((XRRigidTransform.new_inherited ⟨a, b, c, 1⟩ ⟨x, y, z, w⟩).Inverse).bind
        XRRigidTransform.Inverse
      = some (XRRigidTransform.new_inherited ⟨a, b, c, 1⟩ ⟨x, y, z, w⟩) := by
  rw [XRRigidTransform.Inverse_new_inherited, Option.some_bind,
    XRRigidTransform.Inverse_new_inherited, Option.some_inj]
  ext <;>
    simp only [XRRigidTransform.new_inherited, Rotation3D.unit_quaternion,
      Transform3D.create_translation] <;>
    first
      | ring1
      | linear_combination (4 * a * (y ^ 2 + z ^ 2) - 4 * b * x * y - 4 * c * x * z) * h
      | linear_combination (-4 * a * x * y + 4 * b * (x ^ 2 + z ^ 2) - 4 * c * y * z) * h
      | linear_combination (-4 * a * x * z - 4 * b * y * z + 4 * c * (x ^ 2 + y ^ 2)) * h

/-- Witness for C2 at position (1,2,3) and unit quaternion (3/5,0,0,4/5). -/
theorem C2_witness_concrete :
    ((3 / 5 : ℚ) ^ 2 + (0 : ℚ) ^ 2 + (0 : ℚ) ^ 2 + (4 / 5 : ℚ) ^ 2 = 1) ∧
      ((XRRigidTransform.new_inherited ⟨1, 2, 3, 1⟩ ⟨3 / 5, 0, 0, 4 / 5⟩).Inverse).bind
          XRRigidTransform.Inverse
        = some (XRRigidTransform.new_inherited ⟨1, 2, 3, 1⟩ ⟨3 / 5, 0, 0, 4 / 5⟩) :=
  ⟨by norm_num, C2_inverse_inverse_roundtrip 1 2 3 (3 / 5) 0 0 (4 / 5) (by norm_num)⟩

/-- Claim C3 (evaluation at the failing input): the code's `matrix()` applies
the translation to a point before the rotation, not after. At position
(1,0,0) with the unit quaternion (0,0,3/5,4/5) (a rotation about z),
`matrix()` maps the origin to (7/25, 24/25, 0) — the rotation applied to the
position — whereas the claimed contract `p ↦ T(R(p))` maps the origin to
(1,0,0). -/
theorem C3_matrix_translates_before_rotating :
    (XRRigidTransform.new_inherited
          ⟨1, 0, 0, 1⟩ ⟨0, 0, 3 / 5, 4 / 5⟩).matrix.transform_point3d (0, 0, 0)
        = (7 / 25, 24 / 25, 0)
      ∧ spec_matrix_action ⟨1, 0, 0, 1⟩ ⟨0, 0, 3 / 5, 4 / 5⟩ (0, 0, 0) = (1, 0, 0)
      ∧ (XRRigidTransform.new_inherited
            ⟨1, 0, 0, 1⟩ ⟨0, 0, 3 / 5, 4 / 5⟩).matrix.transform_point3d (0, 0, 0)
        ≠ spec_matrix_action ⟨1, 0, 0, 1⟩ ⟨0, 0, 3 / 5, 4 / 5⟩ (0, 0, 0) := by
  norm_num [XRRigidTransform.matrix, XRRigidTransform.new_inherited,
    Transform3D.transform_point3d, Transform3D.post_mul,
    Transform3D.create_translation, Rotation3D.to_transform,
    Rotation3D.unit_quaternion, spec_matrix_action, Prod.ext_iff]

/-- Claim C4: `Inverse()` applied to the identity transform yields exactly
the identity transform (position (0,0,0) with weight 1, orientation
(0,0,0,1)). -/
theorem C4_identity_inverse_fixed_point :
    XRRigidTransform.identity_transform.Inverse
      = some XRRigidTransform.identity_transform :=
  XRRigidTransform.identity_Inverse

/-- Claim C5: for a transform with position (0,0,0) and a unit-quaternion
orientation (x,y,z,w), `Inverse()` yields position (0,0,0) and orientation
equal to the conjugate (-x,-y,-z,w). -/
theorem C5_pure_rotation_inverse_conjugate
    (x y z w : ℚ) (h : x ^ 2 + y ^ 2 + z ^ 2 + w ^ 2 = 1) :
    (XRRigidTransform.new_inherited ⟨0, 0, 0, 1⟩ ⟨x, y, z, w⟩).Inverse
      = some (XRRigidTransform.new_inherited ⟨0, 0, 0, 1⟩ ⟨-x, -y, -z, w⟩) := by
  rw [XRRigidTransform.Inverse_new_inherited, Option.some_inj]
  ext <;>
    simp only [XRRigidTransform.new_inherited, Rotation3D.unit_quaternion,
      Transform3D.create_translation] <;>
    ring

/-- Witness for C5 at the unit quaternion (3/5,0,0,4/5). -/
theorem C5_witness_concrete :
    ((3 / 5 : ℚ) ^ 2 + (0 : ℚ) ^ 2 + (0 : ℚ) ^ 2 + (4 / 5 : ℚ) ^ 2 = 1) ∧
      (XRRigidTransform.new_inherited ⟨0, 0, 0, 1⟩ ⟨3 / 5, 0, 0, 4 / 5⟩).Inverse
        = some (XRRigidTransform.new_inherited
            ⟨0, 0, 0, 1⟩ ⟨-(3 / 5), -0, -0, 4 / 5⟩) :=
  ⟨by norm_num, C5_pure_rotation_inverse_conjugate (3 / 5) 0 0 (4 / 5) (by norm_num)⟩

/-- Claim C6: for a transform with orientation (0,0,0,1) and position
(a,b,c), `Inverse()` yields orientation (0,0,0,1) and position (-a,-b,-c). -/
theorem C6_pure_translation_inverse_negates (a b c : ℚ) :
    (XRRigidTransform.new_inherited ⟨a, b, c, 1⟩ ⟨0, 0, 0, 1⟩).Inverse
      = some (XRRigidTransform.new_inherited ⟨-a, -b, -c, 1⟩ ⟨0, 0, 0, 1⟩) := by
  rw [XRRigidTransform.Inverse_new_inherited, Option.some_inj]
  ext <;>
    simp only [XRRigidTransform.new_inherited, Rotation3D.unit_quaternion,
      Transform3D.create_translation] <;>
    ring

/-- Claim C7: for every constructed transform, inverting the cached
translation matrix succeeds (it is the translation by the negated position
components), so the fatal `expect` branch is unreachable and `Inverse()`
always returns a value. -/
theorem C7_translation_inverse_never_fails (p o : DOMPointReadOnly) :
    (XRRigidTransform.new_inherited p o).translate.inverse
        = some (Transform3D.create_translation (-p.x) (-p.y) (-p.z))
      ∧ ((XRRigidTransform.new_inherited p o).Inverse).isSome = true := by
  constructor
  · exact Transform3D.create_translation_inverse p.x p.y p.z
  · rw [XRRigidTransform.Inverse_new_inherited]; rfl

/-- Claim C8: `Inverse()` allocates a fresh object and leaves every existing
transform — in particular the receiver, with its position, orientation and
cached translation and rotation — unchanged in the store. -/
theorem C8_inverse_allocates_fresh_leaves_original
    (world : List XRRigidTransform) (i : Nat)
    (w' : List XRRigidTransform) (j : Nat)
    (h : XRRigidTransform.inverse_step world i = some (w', j)) :
    j = world.length
      ∧ (∀ k, k < world.length → w'[k]? = world[k]?)
      ∧ ∃ t u, world[i]? = some t ∧ t.Inverse = some u ∧ w' = world ++ [u] := by
  unfold XRRigidTransform.inverse_step at h
  cases hw : world[i]? with
  | none => simp [hw] at h
  | some t =>
    simp only [hw] at h
    cases hv : t.Inverse with
    | none => simp [hv] at h
    | some u =>
      simp only [hv, Option.some.injEq, Prod.mk.injEq] at h
      obtain ⟨hw', hj⟩ := h
      subst hw'
      subst hj
      refine ⟨rfl, ?_, t, u, rfl, hv, rfl⟩
      intro k hk
      rw [List.getElem?_append, if_pos hk]

/-- Witness for C8: inverting the identity transform stored at index 0 of a
one-element store appends the result at the fresh index 1 and leaves the
entry at index 0 unchanged. -/
theorem C8_witness_concrete :
    (1 = [XRRigidTransform.identity_transform].length)
      ∧ (∀ k, k < [XRRigidTransform.identity_transform].length →
          [XRRigidTransform.identity_transform, XRRigidTransform.identity_transform][k]?
            = [XRRigidTransform.identity_transform][k]?)
      ∧ ∃ t u, [XRRigidTransform.identity_transform][0]? = some t
          ∧ t.Inverse = some u
          ∧ [XRRigidTransform.identity_transform, XRRigidTransform.identity_transform]
              = [XRRigidTransform.identity_transform] ++ [u] :=
  C8_inverse_allocates_fresh_leaves_original
    [XRRigidTransform.identity_transform] 0
    [XRRigidTransform.identity_transform, XRRigidTransform.identity_transform] 1
    (by simp [XRRigidTransform.inverse_step, XRRigidTransform.identity_Inverse])

/-- Claim C9: construction always succeeds (the fallible constructor returns
`Ok` for every input, including non-unit orientation quaternions) and does
not normalize: the `Orientation()` accessor returns exactly the supplied
components. -/
theorem C9_constructor_always_ok_no_normalization (p o : DOMPointInit) :
    ∃ t, XRRigidTransform.Constructor p o = Except.ok t
      ∧ t.Orientation.x = o.x ∧ t.Orientation.y = o.y
      ∧ t.Orientation.z = o.z ∧ t.Orientation.w = o.w :=
  ⟨_, rfl, rfl, rfl, rfl, rfl⟩

/-- Claim C10: the supplied position's w component never influences any
derived output: two constructions differing only in that component have the
same `matrix()` and the same `Inverse()` result, and the position of every
`Inverse()` result has w = 1. -/
theorem C10_position_w_never_influences_outputs
    (px py pz w1 w2 : ℚ) (o : DOMPointReadOnly) :
    (XRRigidTransform.new_inherited ⟨px, py, pz, w1⟩ o).matrix
        = (XRRigidTransform.new_inherited ⟨px, py, pz, w2⟩ o).matrix
      ∧ ∃ u, (XRRigidTransform.new_inherited ⟨px, py, pz, w1⟩ o).Inverse = some u
          ∧ (XRRigidTransform.new_inherited ⟨px, py, pz, w2⟩ o).Inverse = some u
          ∧ u.position.w = 1 := by
  refine ⟨rfl, _, XRRigidTransform.Inverse_new_inherited _ _, ?_, rfl⟩
  exact XRRigidTransform.Inverse_new_inherited _ _
